import Mathlib

/-!
Verification of the tool-calling orchestration core of the week1_chatbot
repository: the tool contract (`src/tools/base.py`), the tool registry
(`src/tools/registry.py`) and the chat orchestration loop
(`src/chatbot/bot.py`), shallowly embedded in Lean 4.

Python dictionaries are modelled as association lists with insertion-order
semantics (overwriting an existing key keeps its position, new keys are
appended at the end), exceptions as `Except` values, and the external
collaborators (the OpenAI client and the JSON argument parser) as function
parameters.  Keyword-argument values are opaque to the orchestration core
(only key membership is inspected), so they are modelled as strings.
-/

/-- The single-quote character, used in Python f-string error messages. -/
def sglq : String := String.singleton (Char.ofNat 39)

/-- Keyword arguments passed to a tool: a mapping from parameter name to an
opaque value, modelled as an association list like a Python kwargs dict. -/
abbrev Args := List (String × String)

/-- `tools/base.py` `ToolParameter` (a pydantic model): one named input of a
tool. -/
structure ToolParameter where
  name : String
  type : String
  description : String
  required : Bool
  enum : Option (List String)
  deriving DecidableEq, Repr

/-- `tools/base.py` `BaseTool`: the abstract tool contract.  `execute`
returns `Except.error msg` when the Python implementation raises an
exception whose `str` is `msg`, and `Except.ok s` for a normal result
(`str(result)` is applied by the orchestration layer, so the payload is a
string here). -/
structure BaseTool where
  name : String
  description : String
  parameters : List ToolParameter
  execute : Args → Except String String

/-- Insertion into a Python-dict-like association list: an existing key
keeps its position and gets the new value, a new key is appended. -/
def dictInsert {α : Type} : List (String × α) → String → α → List (String × α)
  | [], k, v => [(k, v)]
  | (k0, v0) :: rest, k, v =>
    if k0 = k then (k, v) :: rest else (k0, v0) :: dictInsert rest k v

/-- Lookup in a Python-dict-like association list. -/
def dictGet {α : Type} : List (String × α) → String → Option α
  | [], _ => none
  | (k0, v) :: rest, k => if k0 = k then some v else dictGet rest k

/-- `tools/registry.py` `ToolRegistry.__init__`: the registry owns the
name-to-tool dict `_tools` and the accumulated error list `_tool_errors`. -/
structure ToolRegistry where
  tools : List (String × BaseTool)
  tool_errors : List String

/-- A freshly constructed `ToolRegistry()`. -/
def emptyRegistry : ToolRegistry := { tools := [], tool_errors := [] }

/-- `ToolRegistry.register` (registry.py lines 20-40): an empty name raises
`ValueError("Tool must have a valid name")`, which the surrounding
`except` converts into an entry of `_tool_errors`; otherwise the tool is
stored under its name (`self._tools[tool.name] = tool`), overwriting any
previous entry in place.  The `isinstance` check cannot fail in the typed
embedding, and the overwrite warning is console output only. -/
def ToolRegistry.register (r : ToolRegistry) (tool : BaseTool) : ToolRegistry :=
  if tool.name = "" then
    { r with tool_errors :=
        r.tool_errors ++ ["Failed to register tool: Tool must have a valid name"] }
  else
    { r with tools := dictInsert r.tools tool.name tool }

/-- The exceptions raised inside `ToolRegistry.execute_tool` before its
catch-all: the `ValueError` of `get_tool`, the `ValueError` of the
missing-parameter check, and any exception escaping `tool.execute`. -/
inductive RegistryError where
  | toolNotFound (name : String) (available : List String)
  | missingParameter (missing : List String)
  | executionError (msg : String)
  deriving Repr

/-- `str(e)` of each exception, following the f-strings in registry.py. -/
def RegistryError.message : RegistryError → String
  | .toolNotFound name available =>
      "Tool " ++ sglq ++ name ++ sglq ++ " not found. Available tools: " ++
        String.intercalate ", " available
  | .missingParameter missing =>
      "Missing required parameters: " ++ String.intercalate ", " missing
  | .executionError msg => msg

/-- `ToolRegistry.get_tool` (registry.py lines 42-49): raises a `ValueError`
listing the currently available tool names when the name is absent. -/
def ToolRegistry.get_tool (r : ToolRegistry) (name : String) :
    Except RegistryError BaseTool :=
  match dictGet r.tools name with
  | some t => Except.ok t
  | none => Except.error (RegistryError.toolNotFound name (r.tools.map Prod.fst))

/-- `ToolRegistry.list_tools` (registry.py lines 51-53): `list(self._tools.keys())`. -/
def ToolRegistry.list_tools (r : ToolRegistry) : List String :=
  r.tools.map Prod.fst

/-- The required-parameter names of `tool` missing from `kwargs`, exactly as
computed by registry.py lines 139-140. -/
def missingOf (tool : BaseTool) (kwargs : Args) : List String :=
  ((tool.parameters.filter fun p => p.required).map fun p => p.name).filter
    fun param => !((kwargs.map Prod.fst).contains param)

/-- The body of `ToolRegistry.execute_tool` (registry.py lines 135-149)
before the catch-all `except`: look the tool up (propagating the
`get_tool` error), raise on missing required parameters, then run
`tool.execute` (propagating its exception). -/
def ToolRegistry.execute_tool_checked (r : ToolRegistry) (name : String)
    (kwargs : Args) : Except RegistryError String :=
  match r.get_tool name with
  | Except.error e => Except.error e
  | Except.ok tool =>
    let missing_params := missingOf tool kwargs
    if missing_params.isEmpty then
      match tool.execute kwargs with
      | Except.ok result => Except.ok result
      | Except.error e => Except.error (RegistryError.executionError e)
    else
      Except.error (RegistryError.missingParameter missing_params)

/-- `ToolRegistry.execute_tool` (registry.py lines 133-154): the catch-all
`except Exception as e: return f"Error: {str(e)}"` turns every exception of
the body into an error-flavored string result, so the function is total. -/
def ToolRegistry.execute_tool (r : ToolRegistry) (name : String)
    (kwargs : Args) : String :=
  match r.execute_tool_checked name kwargs with
  | Except.ok result => result
  | Except.error e => "Error: " ++ e.message

/-- One entry of the `properties` object of the OpenAI function-calling
schema built by `BaseTool.to_openai_tool`. -/
structure PropertySchema where
  type : String
  description : String
  enum : Option (List String)
  deriving DecidableEq, Repr

/-- The `function` object of the schema produced by `to_openai_tool`
(base.py lines 37-48); the constant wrappers `"type": "function"` and
`"parameters": {"type": "object", ...}` are implicit. -/
structure FunctionSchema where
  name : String
  description : String
  properties : List (String × PropertySchema)
  required : List String
  deriving DecidableEq, Repr

/-- The `properties` entry built for one parameter (base.py lines 31-33):
`enum` is attached only when `p.enum` is truthy, i.e. present and
non-empty. -/
def paramSchema (p : ToolParameter) : PropertySchema :=
  { type := p.type
  , description := p.description
  , enum :=
      match p.enum with
      | some l => if l.isEmpty then none else some l
      | none => none }

/-- `BaseTool.to_openai_tool` (base.py lines 28-48): the loop fills the
`properties` dict keyed by parameter name and appends each required
parameter's name to `required`. -/
def BaseTool.to_openai_tool (t : BaseTool) : FunctionSchema :=
  { name := t.name
  , description := t.description
  , properties :=
      t.parameters.foldl (fun acc p => dictInsert acc p.name (paramSchema p)) []
  , required := (t.parameters.filter fun p => p.required).map fun p => p.name }

/-- `ToolRegistry.get_openai_tools` (registry.py lines 64-74): maps every
registered tool through `to_openai_tool`; the per-tool `except` is dead in
the embedding because the conversion is total. -/
def ToolRegistry.get_openai_tools (r : ToolRegistry) : List FunctionSchema :=
  r.tools.map fun p => p.2.to_openai_tool

/-- The stats dict of `ToolRegistry.get_registry_stats` (registry.py lines
206-213). -/
structure RegistryStats where
  total_tools : Nat
  tool_names : List String
  errors : Nat
  error_messages : List String
  deriving DecidableEq, Repr

/-- `ToolRegistry.get_registry_stats`: a read-only snapshot. -/
def ToolRegistry.get_registry_stats (r : ToolRegistry) : RegistryStats :=
  { total_tools := r.tools.length
  , tool_names := r.tools.map Prod.fst
  , errors := r.tool_errors.length
  , error_messages := r.tool_errors }

/-- One concrete `BaseTool` subclass found in a loaded module: its attribute
name and the outcome of calling its zero-argument constructor (`attr()`),
which may raise. -/
structure ToolClass where
  className : String
  instantiate : Except String BaseTool

/-- The outcome of `importlib.import_module` on one plugin file: either
the module import raises, or it yields a module whose `dir()` scan
produces the listed concrete `BaseTool` subclasses. -/
inductive ModuleLoad where
  | failure (msg : String)
  | loaded (classes : List ToolClass)

/-- Python's `str.startswith`, modelled on the character list of the
string so that it evaluates by kernel reduction. -/
def strStartsWith (s pre : String) : Bool :=
  List.isPrefixOf pre.data s.data

/-- One `*.py` file yielded by the `glob` over the plugin directory:
its file name, its size in bytes (`f.stat().st_size`), and what importing
it produces.  The filesystem scan itself is external, so discovery is
modelled parametrically in the list of files found. -/
structure PluginFile where
  fileName : String
  size : Nat
  load : ModuleLoad

/-- The running state of the discovery loop: the registry (`self`), the
local `tools_found` counter and the local `errors` list of
`auto_discover_tools`. -/
abbrev ScanState := ToolRegistry × Nat × List String

/-- The body of the `for f in p.glob("*.py")` loop of
`ToolRegistry.auto_discover_tools` (registry.py lines 86-118): dunder and
empty files are skipped; a module-load failure appends to the local
`errors` list; each discovered class is instantiated and registered, with
an instantiation failure appended to the local `errors` list; `tools_found`
is incremented after every `self.register(attr())` call that returns. -/
def scanStep (st : ScanState) (f : PluginFile) : ScanState :=
  if strStartsWith f.fileName "__" then st
  else if f.size = 0 then st
  else
    match f.load with
    | ModuleLoad.failure e =>
        (st.1, st.2.1, st.2.2 ++ ["Error loading module " ++ f.fileName ++ ": " ++ e])
    | ModuleLoad.loaded classes =>
        classes.foldl
          (fun st2 c =>
            match c.instantiate with
            | Except.ok tool => (st2.1.register tool, st2.2.1 + 1, st2.2.2)
            | Except.error e =>
                (st2.1, st2.2.1,
                  st2.2.2 ++
                    ["Failed to register " ++ c.className ++ " from " ++
                      f.fileName ++ ": " ++ e]))
          st

/-- `ToolRegistry.auto_discover_tools` (registry.py lines 76-131), run over
the files found in the plugin directory.  The Python method returns `None`;
the embedding additionally exposes, as the second and third components, the
local `tools_found` counter and `errors` list that the method only prints
in its console summary. -/
def ToolRegistry.auto_discover_tools (r : ToolRegistry)
    (files : List PluginFile) : ScanState :=
  files.foldl scanStep (r, 0, [])

/-- Message roles of the conversation transcript. -/
inductive Role where
  | system
  | user
  | assistant
  | tool
  deriving DecidableEq, Repr

/-- One entry of an assistant message's `tool_calls` list (and equally one
tool-call request of a model response): an opaque id, the function name,
and the raw JSON argument payload. -/
structure ToolCallRequest where
  id : String
  name : String
  arguments : String
  deriving DecidableEq, Repr

/-- One transcript entry, covering every message shape `bot.py` appends to
`self.conversation_history`: absent dict keys are `none` / `[]`. -/
structure Message where
  role : Role
  content : Option String
  tool_calls : List ToolCallRequest
  tool_call_id : Option String
  name : Option String
  deriving DecidableEq, Repr

/-- The initial system message (bot.py lines 56-58). -/
def systemMessage (prompt : String) : Message :=
  { role := Role.system, content := some prompt, tool_calls := [],
    tool_call_id := none, name := none }

/-- The user message appended at the start of a turn (bot.py line 134). -/
def userMessage (text : String) : Message :=
  { role := Role.user, content := some text, tool_calls := [],
    tool_call_id := none, name := none }

/-- A plain assistant message (bot.py lines 169-171). -/
def assistantText (content : Option String) : Message :=
  { role := Role.assistant, content := content, tool_calls := [],
    tool_call_id := none, name := none }

/-- The per-call assistant message recorded by `_handle_tool_calls` (bot.py
lines 90-105): `content` is `None` and `tool_calls` carries exactly the one
call, re-serialized from the request. -/
def assistantToolCall (tc : ToolCallRequest) : Message :=
  { role := Role.assistant, content := none, tool_calls := [tc],
    tool_call_id := none, name := none }

/-- The tool-role result message built by `_handle_tool_calls` (bot.py
lines 107-114 and 118-125). -/
def toolResultMessage (callId toolName content : String) : Message :=
  { role := Role.tool, content := some content, tool_calls := [],
    tool_call_id := some callId, name := some toolName }

/-- The JSON argument parser (`json.loads`), an external collaborator:
`Except.error msg` models a raised `JSONDecodeError` with message `msg`. -/
abbrev ArgParser := String → Except String Args

/-- The body of the `for tool_call in tool_calls` loop of
`ChatBot._handle_tool_calls` (bot.py lines 75-125), for one call: on a
successful parse the tool is executed (never raising, see
`ToolRegistry.execute_tool`) and the single-call assistant message is
appended to the conversation history while the tool result is appended to
the local `tool_results`; when `json.loads` raises, the `except` branch
appends only an error-content tool result (`function_name` is already
bound, the assistant message is never recorded).  Returns
(history appends, tool_results appends). -/
def handleToolCall (parse : ArgParser) (r : ToolRegistry)
    (tc : ToolCallRequest) : List Message × List Message :=
  match parse tc.arguments with
  | Except.ok args =>
      ([assistantToolCall tc],
        [toolResultMessage tc.id tc.name (r.execute_tool tc.name args)])
  | Except.error e =>
      ([], [toolResultMessage tc.id tc.name ("Error: " ++ e)])

/-- `ChatBot._handle_tool_calls` (bot.py lines 71-127): processes the
requested calls in order, returning the messages appended to
`self.conversation_history` during the loop and the returned
`tool_results` list. -/
def handle_tool_calls (parse : ArgParser) (r : ToolRegistry) :
    List ToolCallRequest → List Message × List Message
  | [] => ([], [])
  | tc :: rest =>
      let this := handleToolCall parse r tc
      let others := handle_tool_calls parse r rest
      (this.1 ++ others.1, this.2 ++ others.2)

/-- A model response message: its text content and its (possibly empty)
list of tool-call requests. -/
structure AssistantTurn where
  content : Option String
  tool_calls : List ToolCallRequest

/-- The OpenAI chat-completions client, an external collaborator: given the
transcript and the `tools` argument (`None` when omitted or empty), it
returns an assistant message or raises (`Except.error` carries `str(e)`).
The fixed model, token and temperature configuration is closed over. -/
abbrev ModelClient :=
  List Message → Option (List FunctionSchema) → Except String AssistantTurn

/-- The `tools=tools if tools else None` argument of the first model call
(bot.py lines 138 and 146). -/
def ToolRegistry.openai_tools_arg (r : ToolRegistry) :
    Option (List FunctionSchema) :=
  let tools := r.get_openai_tools
  if tools.isEmpty then none else some tools

/-- The mutable state of a `ChatBot` instance that the orchestration loop
touches: the tool registry, `conversation_history` and `message_count`. -/
structure BotState where
  tool_registry : ToolRegistry
  conversation_history : List Message
  message_count : Nat

/-- A freshly constructed `ChatBot` (bot.py lines 51-58). -/
def ChatBot.initialState (system_prompt : String) : BotState :=
  { tool_registry := emptyRegistry
  , conversation_history := [systemMessage system_prompt]
  , message_count := 0 }

/-- A turn's result as returned by `ChatBot.chat`: either the assistant
answer of the happy path, or the `except` branch's apology (bot.py lines
175-178), kept as a separate constructor carrying `str(e)`. -/
inductive TurnOutcome where
  | answer (text : String)
  | failure (errMsg : String)
  deriving DecidableEq, Repr

/-- The string `ChatBot.chat` actually returns for each outcome. -/
def TurnOutcome.rendered : TurnOutcome → String
  | .answer t => t
  | .failure e => "Sorry, I encountered an error: " ++ e

/-- Python's `assistant_message.content or "I don't have a response for
that."` (bot.py line 173): `None` and the empty string are both falsy. -/
def contentOrDefault (c : Option String) : String :=
  match c with
  | none => "I don" ++ sglq ++ "t have a response for that."
  | some t => if t = "" then "I don" ++ sglq ++ "t have a response for that." else t

/-- `ChatBot.chat` (bot.py lines 129-178): increment `message_count`,
append the user message, call the model with the transcript and the tool
schemas; with no tool calls append the assistant message and answer; with
tool calls run `_handle_tool_calls`, extend the history with the tool
results, and call the model a second time without tools.  A raise from
either model call is caught by the surrounding `except`, which returns the
apology string with the transcript accumulated so far left in place. -/
def ChatBot.chat (client : ModelClient) (parse : ArgParser)
    (st : BotState) (message : String) : BotState × TurnOutcome :=
  let count := st.message_count + 1
  let r := st.tool_registry
  let history1 := st.conversation_history ++ [userMessage message]
  match client history1 r.openai_tools_arg with
  | Except.error e =>
      ({ st with conversation_history := history1, message_count := count },
        TurnOutcome.failure e)
  | Except.ok am =>
      if am.tool_calls.isEmpty then
        ({ st with
            conversation_history := history1 ++ [assistantText am.content],
            message_count := count },
          TurnOutcome.answer (contentOrDefault am.content))
      else
        let handled := handle_tool_calls parse r am.tool_calls
        let history2 := history1 ++ handled.1 ++ handled.2
        match client history2 none with
        | Except.error e =>
            ({ st with conversation_history := history2, message_count := count },
              TurnOutcome.failure e)
        | Except.ok am2 =>
            ({ st with
                conversation_history := history2 ++ [assistantText am2.content],
                message_count := count },
              TurnOutcome.answer (contentOrDefault am2.content))

/-- `ChatBot.clear_history` (bot.py lines 257-263): truncate the transcript
to a single fresh system message and reset `message_count`; the registry is
untouched. -/
def ChatBot.clear_history (system_prompt : String) (st : BotState) : BotState :=
  { st with conversation_history := [systemMessage system_prompt]
          , message_count := 0 }

/-! ## Dictionary lemmas -/

theorem dictGet_dictInsert_self {α : Type} (m : List (String × α)) (k : String)
    (v : α) : dictGet (dictInsert m k v) k = some v := by
  induction m with
  | nil => simp [dictInsert, dictGet]
  | cons p rest ih =>
    obtain ⟨k0, v0⟩ := p
    by_cases h : k0 = k
    · simp [dictInsert, dictGet, h]
    · simp [dictInsert, dictGet, h, ih]

theorem dictGet_dictInsert_ne {α : Type} (m : List (String × α)) (k k2 : String)
    (v : α) (h : k ≠ k2) : dictGet (dictInsert m k v) k2 = dictGet m k2 := by
  induction m with
  | nil => simp [dictInsert, dictGet, h]
  | cons p rest ih =>
    obtain ⟨k0, v0⟩ := p
    by_cases hk : k0 = k
    · subst hk
      simp [dictInsert, dictGet, h]
    · simp [dictInsert, dictGet, hk, ih]

theorem dictInsert_keys_of_mem {α : Type} (m : List (String × α)) (k : String)
    (v : α) (h : k ∈ m.map Prod.fst) :
    (dictInsert m k v).map Prod.fst = m.map Prod.fst := by
  induction m with
  | nil => simp at h
  | cons p rest ih =>
    obtain ⟨k0, v0⟩ := p
    by_cases hk : k0 = k
    · simp [dictInsert, hk]
    · have hmem : k ∈ rest.map Prod.fst := by
        rw [List.map_cons] at h
        rcases List.mem_cons.mp h with h1 | h1
        · exact absurd h1.symm hk
        · exact h1
      simp [dictInsert, hk, ih hmem]

/-! ## C5: re-registration under an existing name -/

/-- C5: registering a second tool under a name already present in the
registry leaves exactly one entry under that name, holding the second
tool; `list()` keeps its length, and the name keeps the position of its
original insertion (the whole name list is unchanged). -/
theorem register_overwrite_keeps_position (r : ToolRegistry) (t : BaseTool)
    (hmem : t.name ∈ r.list_tools) (hname : t.name ≠ "")
    (hnd : r.list_tools.Nodup) :
    dictGet (r.register t).tools t.name = some t ∧
    (r.register t).list_tools = r.list_tools ∧
    (r.register t).list_tools.length = r.list_tools.length ∧
    (r.register t).list_tools.count t.name = 1 := by
  have hreg : (r.register t).tools = dictInsert r.tools t.name t := by
    simp [ToolRegistry.register, hname]
  have hkeys : (r.register t).list_tools = r.list_tools := by
    simp only [ToolRegistry.list_tools, hreg]
    exact dictInsert_keys_of_mem r.tools t.name t hmem
  refine ⟨?_, hkeys, by rw [hkeys], ?_⟩
  · rw [hreg]
    exact dictGet_dictInsert_self r.tools t.name t
  · rw [hkeys]
    exact List.count_eq_one_of_mem hnd hmem

/-- The first registration of the C5 scenario. -/
def tool1 : BaseTool :=
  { name := "calc", description := "first version", parameters := []
  , execute := fun _ => Except.ok "1" }

/-- The overwriting registration of the C5 scenario. -/
def tool2 : BaseTool :=
  { name := "calc", description := "second version", parameters := []
  , execute := fun _ => Except.ok "2" }

/-- A registry already holding `tool1` under the name `calc`. -/
def regW : ToolRegistry := emptyRegistry.register tool1

theorem register_overwrite_keeps_position_witness :
    dictGet (regW.register tool2).tools "calc" = some tool2 ∧
    (regW.register tool2).list_tools = regW.list_tools ∧
    (regW.register tool2).list_tools.count "calc" = 1 :=
  have h := register_overwrite_keeps_position regW tool2
    (by decide) (by decide) (by decide)
  ⟨h.1, h.2.1, h.2.2.2⟩

/-! ## C3: missing-parameter detection -/

/-- The missing-parameter branch of `execute_tool` (registry.py lines
138-145), factored out: when the looked-up tool has missing required
parameters, the body raises before `tool.execute` is reached. -/
theorem execute_tool_checked_missing (r : ToolRegistry) (name : String)
    (tool : BaseTool) (kwargs : Args)
    (hfind : dictGet r.tools name = some tool)
    (hIsEmpty : (missingOf tool kwargs).isEmpty = false) :
    r.execute_tool_checked name kwargs =
      Except.error (RegistryError.missingParameter (missingOf tool kwargs)) := by
  unfold ToolRegistry.execute_tool_checked ToolRegistry.get_tool
  rw [hfind]
  simp [hIsEmpty]

/-- C3: when the looked-up tool has required parameters absent from the
argument mapping, dispatch raises a missing-parameter error whose message
names all of the missing required parameter names (joined with a comma),
before `execute` is consulted: the outcome is the same for every possible
`execute` behavior of the tool. -/
theorem execute_tool_missing_params (r : ToolRegistry) (name : String)
    (tool : BaseTool) (kwargs : Args)
    (hfind : dictGet r.tools name = some tool)
    (hmiss : missingOf tool kwargs ≠ []) :
    r.execute_tool_checked name kwargs =
      Except.error (RegistryError.missingParameter (missingOf tool kwargs)) ∧
    r.execute_tool name kwargs =
      "Error: " ++ ("Missing required parameters: " ++
        String.intercalate ", " (missingOf tool kwargs)) ∧
    (∀ f : Args → Except String String,
      ToolRegistry.execute_tool_checked
        { r with tools := dictInsert r.tools name { tool with execute := f } }
        name kwargs =
      Except.error (RegistryError.missingParameter (missingOf tool kwargs))) := by
  have hIsEmpty : (missingOf tool kwargs).isEmpty = false := by
    cases hM : missingOf tool kwargs with
    | nil => exact absurd hM hmiss
    | cons a l => rfl
  have hchk := execute_tool_checked_missing r name tool kwargs hfind hIsEmpty
  refine ⟨hchk, ?_, ?_⟩
  · unfold ToolRegistry.execute_tool
    rw [hchk]
    rfl
  · intro f
    exact execute_tool_checked_missing
      { r with tools := dictInsert r.tools name { tool with execute := f } }
      name { tool with execute := f } kwargs
      (dictGet_dictInsert_self r.tools name _) hIsEmpty

/-- A tool with required parameters `a` and `b`, for the C3 scenario. -/
def twoParamTool : BaseTool :=
  { name := "greet", description := "Greets someone"
  , parameters :=
      [ { name := "a", type := "string", description := "first", required := true, enum := none }
      , { name := "b", type := "string", description := "second", required := true, enum := none } ]
  , execute := fun _ => Except.ok "hi" }

/-- A registry holding `twoParamTool`. -/
def regTwo : ToolRegistry := emptyRegistry.register twoParamTool

theorem execute_tool_missing_params_witness :
    missingOf twoParamTool [("a", "1")] = ["b"] ∧
    ToolRegistry.execute_tool regTwo "greet" [("a", "1")] =
      "Error: " ++ ("Missing required parameters: " ++
        String.intercalate ", " (missingOf twoParamTool [("a", "1")])) :=
  have h := execute_tool_missing_params regTwo "greet" twoParamTool [("a", "1")]
    rfl (by decide)
  ⟨by decide, h.2.1⟩

/-! ## C2: dispatch and its exception channel -/

/-- C2 counterexample: the claim asserts that an unknown tool name makes
dispatch raise a tool-not-found error rather than return it as a result;
but `execute_tool` on the unknown name `teleport` returns normally, with
the lookup error delivered as the error-flavored result string.  The
stated claim is therefore false at this input. -/
theorem dispatch_raises_on_unknown_refuted :
    ¬ (ToolRegistry.execute_tool emptyRegistry "teleport" [] ≠
        "Error: " ++ (RegistryError.toolNotFound "teleport" []).message) :=
  fun h => h rfl

/-- C2 amended: dispatch never throws at all — every exception of its body
(the tool-not-found error of `get_tool`, the missing-required-parameter
error, and any exception raised by the tool's `execute`) is caught and
converted into an error-flavored result string `"Error: " ++ message`,
and a normal tool result is passed through unchanged. -/
theorem dispatch_never_throws (r : ToolRegistry) (name : String)
    (kwargs : Args) :
    (∃ e : RegistryError, r.execute_tool_checked name kwargs = Except.error e ∧
        r.execute_tool name kwargs = "Error: " ++ e.message) ∨
    (∃ s : String, r.execute_tool_checked name kwargs = Except.ok s ∧
        r.execute_tool name kwargs = s) := by
  cases h : r.execute_tool_checked name kwargs with
  | error e =>
      exact Or.inl ⟨e, rfl, by unfold ToolRegistry.execute_tool; rw [h]⟩
  | ok s =>
      exact Or.inr ⟨s, rfl, by unfold ToolRegistry.execute_tool; rw [h]⟩

/-! ## C10: execute_tool always returns a textual outcome -/

/-- C10: `execute_tool` is a total function into strings — dispatch never
raises — and its outcome is: for an unknown name, a string reporting the
tool was not found together with the currently available tool names; for
absent required parameters, a string listing all of them; for a raising
`execute`, a string carrying that exception's message; otherwise the
tool's own result. -/
theorem execute_tool_textual_outcome (r : ToolRegistry) (name : String)
    (kwargs : Args) :
    (dictGet r.tools name = none →
      r.execute_tool name kwargs =
        "Error: " ++ ("Tool " ++ sglq ++ name ++ sglq ++
          " not found. Available tools: " ++
          String.intercalate ", " r.list_tools)) ∧
    (∀ tool : BaseTool, dictGet r.tools name = some tool →
      missingOf tool kwargs ≠ [] →
      r.execute_tool name kwargs =
        "Error: " ++ ("Missing required parameters: " ++
          String.intercalate ", " (missingOf tool kwargs))) ∧
    (∀ (tool : BaseTool) (e : String), dictGet r.tools name = some tool →
      missingOf tool kwargs = [] → tool.execute kwargs = Except.error e →
      r.execute_tool name kwargs = "Error: " ++ e) ∧
    (∀ (tool : BaseTool) (s : String), dictGet r.tools name = some tool →
      missingOf tool kwargs = [] → tool.execute kwargs = Except.ok s →
      r.execute_tool name kwargs = s) := by
  refine ⟨?_, ?_, ?_, ?_⟩
  · intro hnone
    unfold ToolRegistry.execute_tool ToolRegistry.execute_tool_checked
      ToolRegistry.get_tool
    rw [hnone]
    rfl
  · intro tool hfind hmiss
    have hIsEmpty : (missingOf tool kwargs).isEmpty = false := by
      cases hM : missingOf tool kwargs with
      | nil => exact absurd hM hmiss
      | cons a l => rfl
    have hchk := execute_tool_checked_missing r name tool kwargs hfind hIsEmpty
    unfold ToolRegistry.execute_tool
    rw [hchk]
    rfl
  · intro tool e hfind hmiss hexec
    have hchk : r.execute_tool_checked name kwargs =
        Except.error (RegistryError.executionError e) := by
      unfold ToolRegistry.execute_tool_checked ToolRegistry.get_tool
      rw [hfind]
      simp [hmiss, hexec]
    unfold ToolRegistry.execute_tool
    rw [hchk]
    rfl
  · intro tool s hfind hmiss hexec
    have hchk : r.execute_tool_checked name kwargs = Except.ok s := by
      unfold ToolRegistry.execute_tool_checked ToolRegistry.get_tool
      rw [hfind]
      simp [hmiss, hexec]
    unfold ToolRegistry.execute_tool
    rw [hchk]

/-- A tool whose `execute` always raises, for exercising the
exception-conversion branch. -/
def bombTool : BaseTool :=
  { name := "bomb", description := "Always raises", parameters := []
  , execute := fun _ => Except.error "kaboom" }

/-- A tool whose `execute` returns normally. -/
def echoTool : BaseTool :=
  { name := "echo", description := "Echoes", parameters := []
  , execute := fun _ => Except.ok "done" }

/-- A registry holding `bombTool` and `echoTool`. -/
def regExec : ToolRegistry := (emptyRegistry.register bombTool).register echoTool

theorem execute_tool_textual_outcome_witness :
    ToolRegistry.execute_tool emptyRegistry "ghost" [] =
      "Error: " ++ ("Tool " ++ sglq ++ "ghost" ++ sglq ++
        " not found. Available tools: " ++
        String.intercalate ", " emptyRegistry.list_tools) ∧
    ToolRegistry.execute_tool regTwo "greet" [] =
      "Error: " ++ ("Missing required parameters: " ++
        String.intercalate ", " (missingOf twoParamTool [])) ∧
    ToolRegistry.execute_tool regExec "bomb" [] = "Error: " ++ "kaboom" ∧
    ToolRegistry.execute_tool regExec "echo" [] = "done" :=
  ⟨(execute_tool_textual_outcome emptyRegistry "ghost" []).1 rfl
  , (execute_tool_textual_outcome regTwo "greet" []).2.1 twoParamTool rfl (by decide)
  , (execute_tool_textual_outcome regExec "bomb" []).2.2.1 bombTool "kaboom" rfl (by decide) rfl
  , (execute_tool_textual_outcome regExec "echo" []).2.2.2 echoTool "done" rfl (by decide) rfl⟩

/-! ## C7: schema conversion -/

/-- Folding `dictInsert` over parameters none of which is named `k` leaves
lookups of `k` unchanged. -/
theorem dictGet_foldl_props_not_mem (ps : List ToolParameter)
    (acc : List (String × PropertySchema)) (k : String)
    (h : ∀ p ∈ ps, p.name ≠ k) :
    dictGet (ps.foldl (fun a p => dictInsert a p.name (paramSchema p)) acc) k
      = dictGet acc k := by
  induction ps generalizing acc with
  | nil => rfl
  | cons q rest ih =>
    simp only [List.foldl_cons]
    rw [ih _ (fun p hp => h p (List.mem_cons_of_mem _ hp))]
    exact dictGet_dictInsert_ne acc q.name k (paramSchema q)
      (h q (List.mem_cons_self _ _))

/-- With pairwise-distinct parameter names, the `properties` dict built by
the `to_openai_tool` loop maps each parameter's name to its schema entry. -/
theorem dictGet_foldl_props (ps : List ToolParameter)
    (acc : List (String × PropertySchema)) (p : ToolParameter)
    (hp : p ∈ ps) (hnd : (ps.map fun q => q.name).Nodup) :
    dictGet (ps.foldl (fun a q => dictInsert a q.name (paramSchema q)) acc) p.name
      = some (paramSchema p) := by
  induction ps generalizing acc with
  | nil => cases hp
  | cons q rest ih =>
    rw [List.map_cons] at hnd
    obtain ⟨hq, hrest⟩ := List.nodup_cons.mp hnd
    simp only [List.foldl_cons]
    rcases List.mem_cons.mp hp with rfl | hmem
    · rw [dictGet_foldl_props_not_mem rest _ p.name
        (fun x hx hEq => hq (hEq ▸ List.mem_map_of_mem _ hx))]
      exact dictGet_dictInsert_self acc p.name (paramSchema p)
    · exact ih _ hmem hrest

/-- C7: for every tool, `to_openai_tool` produces a schema whose `required`
list is exactly the names of the parameters marked required (in
declaration order), and whose `properties` is keyed by parameter name,
carrying that parameter's type and description (and its enum only when
present and non-empty). -/
theorem to_openai_tool_schema (t : BaseTool)
    (hnd : (t.parameters.map fun p => p.name).Nodup) :
    t.to_openai_tool.required =
      (t.parameters.filter fun p => p.required).map (fun p => p.name) ∧
    ∀ p ∈ t.parameters,
      dictGet t.to_openai_tool.properties p.name =
        some { type := p.type
             , description := p.description
             , enum :=
                 match p.enum with
                 | some l => if l.isEmpty then none else some l
                 | none => none } :=
  ⟨rfl, fun p hp => dictGet_foldl_props t.parameters [] p hp hnd⟩

/-- The tool of the round-trip schema scenario: a single parameter
`x : number`, required, without enum. -/
def xTool : BaseTool :=
  { name := "plot", description := "Plots a value"
  , parameters :=
      [ { name := "x", type := "number", description := "The x value"
        , required := true, enum := none } ]
  , execute := fun _ => Except.ok "plotted" }

theorem to_openai_tool_schema_witness :
    xTool.to_openai_tool.required = ["x"] ∧
    (dictGet xTool.to_openai_tool.properties "x").map (fun s => s.type) =
      some "number" := by
  have h := to_openai_tool_schema xTool (by decide)
  have hx := h.2
    { name := "x", type := "number", description := "The x value"
    , required := true, enum := none } (by decide)
  exact ⟨h.1, by rw [hx]; rfl⟩

/-! ## C6: fault isolation in discovery -/

/-- C6 amended: a failure loading one plugin unit is captured in the
discovery scan's own local error list and does not prevent registration of
the remaining units' tools.  For three units where only the second fails
to load, the tools of the first and third are registered, `tools_found` is
2, exactly one error is recorded in the scan's error list — and the
registry's accumulated `_tool_errors` (what `get_registry_stats` reports)
is left unchanged, because the scan's errors stay local. -/
theorem discovery_isolates_unit_failure (r : ToolRegistry)
    (u1 u2 u3 : PluginFile) (c1 c3 : String) (t1 t3 : BaseTool) (e : String)
    (h1 : u1.load = ModuleLoad.loaded [⟨c1, Except.ok t1⟩])
    (h1n : strStartsWith u1.fileName "__" = false) (h1s : u1.size ≠ 0)
    (h2 : u2.load = ModuleLoad.failure e)
    (h2n : strStartsWith u2.fileName "__" = false) (h2s : u2.size ≠ 0)
    (h3 : u3.load = ModuleLoad.loaded [⟨c3, Except.ok t3⟩])
    (h3n : strStartsWith u3.fileName "__" = false) (h3s : u3.size ≠ 0)
    (ht1 : t1.name ≠ "") (ht3 : t3.name ≠ "") :
    dictGet (r.auto_discover_tools [u1, u2, u3]).1.tools t3.name = some t3 ∧
    (t1.name ≠ t3.name →
      dictGet (r.auto_discover_tools [u1, u2, u3]).1.tools t1.name = some t1) ∧
    (r.auto_discover_tools [u1, u2, u3]).2.1 = 2 ∧
    (r.auto_discover_tools [u1, u2, u3]).2.2 =
      ["Error loading module " ++ u2.fileName ++ ": " ++ e] ∧
    (r.auto_discover_tools [u1, u2, u3]).1.tool_errors = r.tool_errors := by
  have e1 : scanStep (r, 0, []) u1 = (r.register t1, 1, []) := by
    simp [scanStep, h1n, h1s, h1]
  have e2 : scanStep (r.register t1, 1, []) u2 =
      (r.register t1, 1, ["Error loading module " ++ u2.fileName ++ ": " ++ e]) := by
    simp [scanStep, h2n, h2s, h2]
  have e3 : scanStep
      (r.register t1, 1, ["Error loading module " ++ u2.fileName ++ ": " ++ e]) u3 =
      ((r.register t1).register t3, 2,
        ["Error loading module " ++ u2.fileName ++ ": " ++ e]) := by
    simp [scanStep, h3n, h3s, h3]
  have eo : r.auto_discover_tools [u1, u2, u3] =
      ((r.register t1).register t3, 2,
        ["Error loading module " ++ u2.fileName ++ ": " ++ e]) := by
    unfold ToolRegistry.auto_discover_tools
    simp only [List.foldl_cons, List.foldl_nil]
    rw [e1, e2, e3]
  have hr1tools : (r.register t1).tools = dictInsert r.tools t1.name t1 := by
    simp [ToolRegistry.register, ht1]
  have hr2tools : ((r.register t1).register t3).tools =
      dictInsert (r.register t1).tools t3.name t3 := by
    simp [ToolRegistry.register, ht3]
  refine ⟨?_, ?_, ?_, ?_, ?_⟩
  · rw [eo]
    show dictGet ((r.register t1).register t3).tools t3.name = some t3
    rw [hr2tools]
    exact dictGet_dictInsert_self _ _ _
  · intro hne
    rw [eo]
    show dictGet ((r.register t1).register t3).tools t1.name = some t1
    rw [hr2tools, dictGet_dictInsert_ne _ _ _ _ (fun hEq => hne hEq.symm),
      hr1tools]
    exact dictGet_dictInsert_self _ _ _
  · rw [eo]
  · rw [eo]
  · rw [eo]
    show ((r.register t1).register t3).tool_errors = r.tool_errors
    simp [ToolRegistry.register, ht1, ht3]

/-- The first plugin unit of the discovery scenario: loads fine and
contributes one tool. -/
def toolAlpha : BaseTool :=
  { name := "alpha", description := "Tool alpha", parameters := []
  , execute := fun _ => Except.ok "a" }

/-- The third plugin unit's tool. -/
def toolGamma : BaseTool :=
  { name := "gamma", description := "Tool gamma", parameters := []
  , execute := fun _ => Except.ok "c" }

/-- First plugin file: loads, yields `toolAlpha`. -/
def fileAlpha : PluginFile :=
  { fileName := "alpha_tool.py", size := 120
  , load := ModuleLoad.loaded [⟨"AlphaTool", Except.ok toolAlpha⟩] }

/-- Second plugin file: raises on import. -/
def fileBeta : PluginFile :=
  { fileName := "beta_tool.py", size := 90
  , load := ModuleLoad.failure "boom" }

/-- Third plugin file: loads, yields `toolGamma`. -/
def fileGamma : PluginFile :=
  { fileName := "gamma_tool.py", size := 150
  , load := ModuleLoad.loaded [⟨"GammaTool", Except.ok toolGamma⟩] }

/-- C6 counterexample: in the three-unit scenario where only the second
unit fails to load, the one error is recorded in the scan's local error
list, but the registry stats report zero errors — the claim that the
failure is captured in the registry's error list visible via stats (so
that stats would report the one error) is false at this input. -/
theorem discovery_error_not_visible_in_stats :
    (ToolRegistry.auto_discover_tools emptyRegistry
        [fileAlpha, fileBeta, fileGamma]).1.get_registry_stats.errors = 0 ∧
    (ToolRegistry.auto_discover_tools emptyRegistry
        [fileAlpha, fileBeta, fileGamma]).2.2.length = 1 ∧
    ¬ ((ToolRegistry.auto_discover_tools emptyRegistry
        [fileAlpha, fileBeta, fileGamma]).1.get_registry_stats.errors = 1) := by
  refine ⟨rfl, rfl, by decide⟩

theorem discovery_isolates_unit_failure_witness :
    dictGet (ToolRegistry.auto_discover_tools emptyRegistry
      [fileAlpha, fileBeta, fileGamma]).1.tools "gamma" = some toolGamma ∧
    dictGet (ToolRegistry.auto_discover_tools emptyRegistry
      [fileAlpha, fileBeta, fileGamma]).1.tools "alpha" = some toolAlpha ∧
    (ToolRegistry.auto_discover_tools emptyRegistry
      [fileAlpha, fileBeta, fileGamma]).2.2 =
      ["Error loading module " ++ "beta_tool.py" ++ ": " ++ "boom"] := by
  have h := discovery_isolates_unit_failure emptyRegistry
    fileAlpha fileBeta fileGamma "AlphaTool" "GammaTool" toolAlpha toolGamma
    "boom" rfl (by decide) (by decide) rfl (by decide) (by decide) rfl
    (by decide) (by decide) (by decide) (by decide)
  exact ⟨h.1, h.2.1 (by decide), h.2.2.2.1⟩

/-! ## C1: placement of tool-role results in the transcript -/

/-- Whether `m`, a tool-role message, is correctly answered by the message
`prev` right before it: `prev` must be an assistant message whose
`tool_calls` contains exactly one call, whose id equals `m`'s
`tool_call_id`. -/
def pairedAt (prev m : Message) : Bool :=
  match prev.role, prev.tool_calls, m.tool_call_id with
  | Role.assistant, [c], some tid => c.id == tid
  | _, _, _ => false

/-- Walks the transcript checking every tool-role message against its
immediate predecessor. -/
def pairedAux : Message → List Message → Bool
  | _, [] => true
  | prev, m :: rest =>
    (if m.role == Role.tool then pairedAt prev m else true) && pairedAux m rest

/-- The claimed invariant: every tool-role message in the transcript
appears immediately after an assistant message whose `tool_calls` contains
exactly that one call, with matching id. -/
def toolResultsPaired : List Message → Bool
  | [] => true
  | m :: rest => (if m.role == Role.tool then false else true) && pairedAux m rest

/-- The `tool_call_id`s of the transcript's tool-role messages, in
transcript order. -/
def toolResultIdsOf (ms : List Message) : List (Option String) :=
  (ms.filter fun m => m.role == Role.tool).map fun m => m.tool_call_id

/-- A registry holding only `echoTool`, used in the orchestration
scenarios. -/
def echoRegistry : ToolRegistry := emptyRegistry.register echoTool

/-- A JSON parser that accepts every payload as an empty kwargs mapping. -/
def okParse : ArgParser := fun _ => Except.ok []

/-- A model client that requests two `echo` tool calls on the first call of
a turn (when tool schemas are offered) and answers with plain text on the
second (tool schemas omitted). -/
def twoCallClient : ModelClient := fun _ toolsArg =>
  match toolsArg with
  | some _ =>
      Except.ok
        { content := none
        , tool_calls :=
            [ { id := "call_1", name := "echo", arguments := "\x7b\x7d" }
            , { id := "call_2", name := "echo", arguments := "\x7b\x7d" } ] }
  | none => Except.ok { content := some "ok", tool_calls := [] }

/-- The starting state of the two-call scenario. -/
def twoCallStart : BotState :=
  { tool_registry := echoRegistry
  , conversation_history := [systemMessage "sys"]
  , message_count := 0 }

/-- The transcript after one turn of the two-call scenario. -/
def twoCallHistory : List Message :=
  (ChatBot.chat twoCallClient okParse twoCallStart "hi").1.conversation_history

/-- C1 counterexample: in a turn where the model issues two tool-call
requests, the code appends both single-call assistant messages first and
both tool-role results afterwards, so the first tool result does not stand
immediately after its own assistant message — the claimed pairing
invariant is false on this transcript, even though the tool results do
appear in request order with matching ids. -/
theorem chat_pairing_invariant_refuted :
    ¬ (toolResultsPaired twoCallHistory = true) ∧
    toolResultIdsOf twoCallHistory = [some "call_1", some "call_2"] := by
  decide

/-- `ChatBot.chat` with its local `let` bindings expanded, for rewriting
under the model-call scrutinees. -/
theorem chat_unfold (client : ModelClient) (parse : ArgParser)
    (st : BotState) (message : String) :
    ChatBot.chat client parse st message =
      (match client (st.conversation_history ++ [userMessage message])
          st.tool_registry.openai_tools_arg with
       | Except.error e =>
          ({ st with
              conversation_history := st.conversation_history ++ [userMessage message],
              message_count := st.message_count + 1 },
            TurnOutcome.failure e)
       | Except.ok am =>
          if am.tool_calls.isEmpty then
            ({ st with
                conversation_history :=
                  st.conversation_history ++ [userMessage message] ++
                    [assistantText am.content],
                message_count := st.message_count + 1 },
              TurnOutcome.answer (contentOrDefault am.content))
          else
            (match client (st.conversation_history ++ [userMessage message] ++
                (handle_tool_calls parse st.tool_registry am.tool_calls).1 ++
                (handle_tool_calls parse st.tool_registry am.tool_calls).2) none with
             | Except.error e =>
                ({ st with
                    conversation_history :=
                      st.conversation_history ++ [userMessage message] ++
                        (handle_tool_calls parse st.tool_registry am.tool_calls).1 ++
                        (handle_tool_calls parse st.tool_registry am.tool_calls).2,
                    message_count := st.message_count + 1 },
                  TurnOutcome.failure e)
             | Except.ok am2 =>
                ({ st with
                    conversation_history :=
                      st.conversation_history ++ [userMessage message] ++
                        (handle_tool_calls parse st.tool_registry am.tool_calls).1 ++
                        (handle_tool_calls parse st.tool_registry am.tool_calls).2 ++
                        [assistantText am2.content],
                    message_count := st.message_count + 1 },
                  TurnOutcome.answer (contentOrDefault am2.content)))) := rfl

/-- The per-call results of `_handle_tool_calls` carry the requested ids in
request order, one tool-role message per request. -/
theorem handle_tool_calls_order (parse : ArgParser) (r : ToolRegistry)
    (tcs : List ToolCallRequest) :
    (handle_tool_calls parse r tcs).2.map (fun m => m.tool_call_id) =
      tcs.map (fun c => some c.id) ∧
    (handle_tool_calls parse r tcs).2.map (fun m => m.role) =
      tcs.map (fun _ => Role.tool) := by
  induction tcs with
  | nil => exact ⟨rfl, rfl⟩
  | cons tc rest ih =>
    simp only [handle_tool_calls]
    cases hp : parse tc.arguments with
    | ok args => simp [handleToolCall, hp, toolResultMessage, ih.1, ih.2]
    | error e => simp [handleToolCall, hp, toolResultMessage, ih.1, ih.2]

/-- C1 amended: for a turn in which the model requests tool calls
`[c1, ..., cn]`, the tool-role result messages appear in the transcript in
the exact request order with each `tool_call_id` equal to its request's
id; the transcript grows by the user message, then all the single-call
assistant messages recorded during the loop, then all tool-role results as
one block.  A tool result stands immediately after an assistant message
whose `tool_calls` contains exactly that one call only in the
single-request case (with parseable arguments): there the appended
exchange is exactly the assistant/tool pair. -/
theorem chat_tool_exchange_shape (client : ModelClient) (parse : ArgParser)
    (st : BotState) (message : String) (resp : AssistantTurn)
    (hcall : client (st.conversation_history ++ [userMessage message])
        st.tool_registry.openai_tools_arg = Except.ok resp)
    (hne : resp.tool_calls ≠ []) :
    (handle_tool_calls parse st.tool_registry resp.tool_calls).2.map
        (fun m => m.tool_call_id) = resp.tool_calls.map (fun c => some c.id) ∧
    (handle_tool_calls parse st.tool_registry resp.tool_calls).2.map
        (fun m => m.role) = resp.tool_calls.map (fun _ => Role.tool) ∧
    (∃ tail, (ChatBot.chat client parse st message).1.conversation_history =
        st.conversation_history ++ [userMessage message] ++
        (handle_tool_calls parse st.tool_registry resp.tool_calls).1 ++
        (handle_tool_calls parse st.tool_registry resp.tool_calls).2 ++ tail) ∧
    (∀ (c : ToolCallRequest) (args : Args), resp.tool_calls = [c] →
      parse c.arguments = Except.ok args →
      (handle_tool_calls parse st.tool_registry resp.tool_calls).1 ++
        (handle_tool_calls parse st.tool_registry resp.tool_calls).2 =
        [assistantToolCall c,
          toolResultMessage c.id c.name
            (st.tool_registry.execute_tool c.name args)] ∧
      pairedAt (assistantToolCall c)
        (toolResultMessage c.id c.name
          (st.tool_registry.execute_tool c.name args)) = true) := by
  have hEmpty : resp.tool_calls.isEmpty = false := by
    cases h : resp.tool_calls with
    | nil => exact absurd h hne
    | cons a l => rfl
  refine ⟨(handle_tool_calls_order parse st.tool_registry resp.tool_calls).1,
    (handle_tool_calls_order parse st.tool_registry resp.tool_calls).2, ?_, ?_⟩
  · rw [chat_unfold, hcall]
    simp only [hEmpty, Bool.false_eq_true, if_false]
    cases h2 : client (st.conversation_history ++ [userMessage message] ++
        (handle_tool_calls parse st.tool_registry resp.tool_calls).1 ++
        (handle_tool_calls parse st.tool_registry resp.tool_calls).2) none with
    | error e => exact ⟨[], by simp⟩
    | ok am2 => exact ⟨[assistantText am2.content], by simp⟩
  · intro c args hc hparse
    rw [hc]
    refine ⟨?_, ?_⟩
    · simp [handle_tool_calls, handleToolCall, hparse]
    · simp [pairedAt, assistantToolCall, toolResultMessage]

/-- A model client requesting a single `echo` tool call. -/
def oneCallClient : ModelClient := fun _ toolsArg =>
  match toolsArg with
  | some _ =>
      Except.ok
        { content := none
        , tool_calls := [{ id := "call_9", name := "echo", arguments := "\x7b\x7d" }] }
  | none => Except.ok { content := some "fine", tool_calls := [] }

theorem chat_tool_exchange_shape_witness :
    (handle_tool_calls okParse echoRegistry
        [{ id := "call_9", name := "echo", arguments := "\x7b\x7d" }]).2.map
        (fun m => m.tool_call_id) = [some "call_9"] ∧
    pairedAt (assistantToolCall { id := "call_9", name := "echo", arguments := "\x7b\x7d" })
      (toolResultMessage "call_9" "echo" (echoRegistry.execute_tool "echo" [])) =
      true := by
  have h := chat_tool_exchange_shape oneCallClient okParse twoCallStart "hi"
    { content := none
    , tool_calls := [{ id := "call_9", name := "echo", arguments := "\x7b\x7d" }] }
    rfl (by simp)
  exact ⟨h.1,
    (h.2.2.2 { id := "call_9", name := "echo", arguments := "\x7b\x7d" } []
      rfl rfl).2⟩

/-! ## C4: only a model-call failure is fatal to a turn -/

/-- C4: a turn fails only when a model call raises.  When the `chat` turn
ends in the failure outcome carrying message `e`, either the first model
call raised `e` and the transcript holds exactly the prior history plus
the user message, or the first call succeeded with tool-call requests, the
whole tool exchange was appended, and the second model call raised `e`
with that transcript (tool exchange included) left intact.  Conversely a
raising first model call always fails the turn, and the failure is
surfaced to the caller as the error-reporting return string. -/
theorem model_call_failure_only_fatal (client : ModelClient)
    (parse : ArgParser) (st : BotState) (message : String) :
    (∀ e, (ChatBot.chat client parse st message).2 = TurnOutcome.failure e →
      (client (st.conversation_history ++ [userMessage message])
          st.tool_registry.openai_tools_arg = Except.error e ∧
        (ChatBot.chat client parse st message).1.conversation_history =
          st.conversation_history ++ [userMessage message]) ∨
      (∃ resp : AssistantTurn,
        client (st.conversation_history ++ [userMessage message])
          st.tool_registry.openai_tools_arg = Except.ok resp ∧
        resp.tool_calls ≠ [] ∧
        client (st.conversation_history ++ [userMessage message] ++
          (handle_tool_calls parse st.tool_registry resp.tool_calls).1 ++
          (handle_tool_calls parse st.tool_registry resp.tool_calls).2) none =
          Except.error e ∧
        (ChatBot.chat client parse st message).1.conversation_history =
          st.conversation_history ++ [userMessage message] ++
            (handle_tool_calls parse st.tool_registry resp.tool_calls).1 ++
            (handle_tool_calls parse st.tool_registry resp.tool_calls).2)) ∧
    (∀ e, client (st.conversation_history ++ [userMessage message])
        st.tool_registry.openai_tools_arg = Except.error e →
      (ChatBot.chat client parse st message).2 = TurnOutcome.failure e) ∧
    (∀ e, (ChatBot.chat client parse st message).2 = TurnOutcome.failure e →
      (ChatBot.chat client parse st message).2.rendered =
        "Sorry, I encountered an error: " ++ e) := by
  rw [chat_unfold]
  cases h1 : client (st.conversation_history ++ [userMessage message])
      st.tool_registry.openai_tools_arg with
  | error e0 =>
    refine ⟨?_, ?_, ?_⟩
    · intro e hf
      simp only [TurnOutcome.failure.injEq] at hf
      exact Or.inl ⟨by rw [hf], rfl⟩
    · intro e he
      injection he with he0
      rw [he0]
    · intro e hf
      simp only [TurnOutcome.failure.injEq] at hf
      simp [hf, TurnOutcome.rendered]
  | ok am =>
    cases hE : am.tool_calls.isEmpty with
    | true =>
      simp only [hE, if_true]
      refine ⟨?_, ?_, ?_⟩
      · intro e hf
        cases hf
      · intro e he
        exact Except.noConfusion he
      · intro e hf
        cases hf
    | false =>
      simp only [hE, Bool.false_eq_true, if_false]
      have hne : am.tool_calls ≠ [] := by
        intro hceq
        rw [hceq] at hE
        cases hE
      cases h2 : client (st.conversation_history ++ [userMessage message] ++
          (handle_tool_calls parse st.tool_registry am.tool_calls).1 ++
          (handle_tool_calls parse st.tool_registry am.tool_calls).2) none with
      | error e0 =>
        refine ⟨?_, ?_, ?_⟩
        · intro e hf
          simp only [TurnOutcome.failure.injEq] at hf
          exact Or.inr ⟨am, rfl, hne, hf ▸ h2, rfl⟩
        · intro e he
          exact Except.noConfusion he
        · intro e hf
          simp only [TurnOutcome.failure.injEq] at hf
          simp [hf, TurnOutcome.rendered]
      | ok am2 =>
        refine ⟨?_, ?_, ?_⟩
        · intro e hf
          cases hf
        · intro e he
          exact Except.noConfusion he
        · intro e hf
          cases hf

/-- A model client whose every call raises. -/
def failClient : ModelClient := fun _ _ => Except.error "boom"

theorem model_call_failure_only_fatal_witness :
    (ChatBot.chat failClient okParse (ChatBot.initialState "sys") "hello").2 =
      TurnOutcome.failure "boom" ∧
    (ChatBot.chat failClient okParse (ChatBot.initialState "sys") "hello").2.rendered =
      "Sorry, I encountered an error: " ++ "boom" := by
  have h := model_call_failure_only_fatal failClient okParse
    (ChatBot.initialState "sys") "hello"
  have h2 := h.2.1 "boom" rfl
  exact ⟨h2, h.2.2 "boom" h2⟩

/-! ## C8: the transcript is append-only; reset truncates to one message -/

/-- C8: one chat turn only ever appends to the transcript — the previous
transcript is left in place as a prefix, whatever the model, parser and
registry do — and `clear_history` truncates it back to exactly one
message, a fresh system message carrying the system prompt. -/
theorem transcript_append_only (client : ModelClient) (parse : ArgParser)
    (st : BotState) (message system_prompt : String) :
    (∃ tail, (ChatBot.chat client parse st message).1.conversation_history =
        st.conversation_history ++ tail) ∧
    (ChatBot.clear_history system_prompt st).conversation_history =
      [systemMessage system_prompt] ∧
    (ChatBot.clear_history system_prompt st).conversation_history.length = 1 := by
  refine ⟨?_, rfl, rfl⟩
  rw [chat_unfold]
  cases h1 : client (st.conversation_history ++ [userMessage message])
      st.tool_registry.openai_tools_arg with
  | error e0 => exact ⟨[userMessage message], rfl⟩
  | ok am =>
    cases hE : am.tool_calls.isEmpty with
    | true =>
      simp only [hE, if_true]
      exact ⟨[userMessage message] ++ [assistantText am.content], by simp⟩
    | false =>
      simp only [hE, Bool.false_eq_true, if_false]
      cases h2 : client (st.conversation_history ++ [userMessage message] ++
          (handle_tool_calls parse st.tool_registry am.tool_calls).1 ++
          (handle_tool_calls parse st.tool_registry am.tool_calls).2) none with
      | error e0 =>
        exact ⟨[userMessage message] ++
          (handle_tool_calls parse st.tool_registry am.tool_calls).1 ++
          (handle_tool_calls parse st.tool_registry am.tool_calls).2, by simp⟩
      | ok am2 =>
        exact ⟨[userMessage message] ++
          (handle_tool_calls parse st.tool_registry am.tool_calls).1 ++
          (handle_tool_calls parse st.tool_registry am.tool_calls).2 ++
          [assistantText am2.content], by simp⟩

/-! ## C9: a chat turn never mutates the tool registry -/

/-- C9: processing one chat turn leaves the tool registry untouched, for
every user message, model behavior, parser behavior and tool outcome: the
registered tools, their order (`list_tools`) and the accumulated error
messages (`get_registry_stats`) are identical before and after the
turn. -/
theorem chat_preserves_registry (client : ModelClient) (parse : ArgParser)
    (st : BotState) (message : String) :
    (ChatBot.chat client parse st message).1.tool_registry = st.tool_registry ∧
    (ChatBot.chat client parse st message).1.tool_registry.list_tools =
      st.tool_registry.list_tools ∧
    (ChatBot.chat client parse st message).1.tool_registry.get_registry_stats =
      st.tool_registry.get_registry_stats := by
  have h : (ChatBot.chat client parse st message).1.tool_registry =
      st.tool_registry := by
    rw [chat_unfold]
    cases h1 : client (st.conversation_history ++ [userMessage message])
        st.tool_registry.openai_tools_arg with
    | error e0 => rfl
    | ok am =>
      cases hE : am.tool_calls.isEmpty with
      | true => simp [hE]
      | false =>
        simp only [hE, Bool.false_eq_true, if_false]
        cases h2 : client (st.conversation_history ++ [userMessage message] ++
            (handle_tool_calls parse st.tool_registry am.tool_calls).1 ++
            (handle_tool_calls parse st.tool_registry am.tool_calls).2) none with
        | error e0 => rfl
        | ok am2 => rfl
  exact ⟨h, by rw [h], by rw [h]⟩
